import Mathlib

/-!
Verification of the webauthn-tiny ceremony orchestrator and access gate
(`src/handlers.rs`, `src/main.rs`).

The HTTP handlers are shallowly embedded as pure Lean functions: a handler
takes its extractor arguments (session contents, request payload, shared
application state) and returns its result together with the session and
application state it leaves behind.  The external webauthn cryptographic
primitive (`webauthn_rs`) is a collaborator specified only at its interface
boundary, so handlers are parametrised by a `Webauthn` record of its four
ceremony functions and the configured allowed-origin list; likewise URL
parsing (the `url` crate) is a parameter, and the liquid templating layer is
abstracted to its success/failure outcomes.  `session.insert` / `remove` are
modelled as total: their only failure mode in the source is serde
serialization of the inserted value, which cannot fail for the value types
the handlers store.  The credential repository (`app.rs`) is not part of the
source tree; its operations are modelled from the spec and marked as such.
-/

namespace WebauthnTiny

/-- HTTP status codes used by the handlers (axum `StatusCode`). -/
inductive StatusCode where
  | OK
  | NO_CONTENT
  | BAD_REQUEST
  | UNAUTHORIZED
  | FORBIDDEN
  | NOT_FOUND
  | INTERNAL_SERVER_ERROR
deriving DecidableEq, Repr

/-- Opaque registration ceremony state produced by `start_passkey_registration`
and stored in the session under `SESSIONKEY_PASSKEYREGISTRATION`. -/
structure PasskeyRegistration where
  blob : Nat
deriving DecidableEq, Repr

/-- Opaque authentication ceremony state produced by
`start_passkey_authentication` and stored under
`SESSIONKEY_PASSKEYAUTHENTICATION`. -/
structure PasskeyAuthentication where
  blob : Nat
deriving DecidableEq, Repr

/-- A registered passkey as produced by `finish_passkey_registration`; the
handlers only inspect `cred_id()`, the rest is opaque key material. -/
structure Passkey where
  cred_id : String
  counter : Nat
deriving DecidableEq, Repr

/-- Client response body of a registration finish
(`RegisterPublicKeyCredential`); opaque to the orchestrator. -/
structure RegisterPublicKeyCredential where
  raw : Nat
deriving DecidableEq, Repr

/-- Client response body of an authentication finish (`PublicKeyCredential`);
opaque to the orchestrator. -/
structure PublicKeyCredential where
  raw : Nat
deriving DecidableEq, Repr

/-- Challenge payload returned by `start_passkey_registration`. -/
structure CreationChallengeResponse where
  raw : Nat
deriving DecidableEq, Repr

/-- Challenge payload returned by `start_passkey_authentication`. -/
structure RequestChallengeResponse where
  raw : Nat
deriving DecidableEq, Repr

/-- Result of `finish_passkey_authentication`: a credential identifier, an
updated counter and the `needs_update()` flag. -/
structure AuthenticationResult where
  cred_id : String
  counter : Nat
  needs_update : Bool
deriving DecidableEq, Repr

/-- A stored credential row: the passkey together with its user-assigned
display name (`c.credential` / `c.name` in the handlers). -/
structure Credential where
  credential : Passkey
  name : String
deriving DecidableEq, Repr

/-- A user row with its owned credentials, as returned by
`get_user_with_credentials`. -/
structure User where
  id : Nat
  username : String
  credentials : List Credential
deriving DecidableEq, Repr

/-- The session's recognised key/value entries, one optional field per
session key (`logged_in`, `passkey_registration`, `passkey_authentication`,
`redirect_url`); `none` models an absent key. -/
structure Session where
  logged_in : Option Bool := none
  passkey_registration : Option PasskeyRegistration := none
  passkey_authentication : Option PasskeyAuthentication := none
  redirect_url : Option String := none
deriving DecidableEq, Repr

/-- A URL origin: scheme + host + port, the tuple `url::Url::origin`
compares. -/
structure Origin where
  scheme : String
  host : String
  port : Nat
deriving DecidableEq, Repr

/-- A parsed absolute URL; the handlers only ever inspect its origin. -/
structure Url where
  origin : Origin
deriving DecidableEq, Repr

/-- Opaque error of the external webauthn primitive. -/
structure WebauthnError where
  code : Nat
deriving DecidableEq, Repr

/-- The external webauthn cryptographic primitive, specified at its interface
boundary: the four ceremony functions plus the configured allowed-origin
list returned by `get_allowed_origins()`. -/
structure Webauthn where
  start_passkey_registration :
    Nat → String → String → List String →
    Except WebauthnError (CreationChallengeResponse × PasskeyRegistration)
  finish_passkey_registration :
    RegisterPublicKeyCredential → PasskeyRegistration →
    Except WebauthnError Passkey
  start_passkey_authentication :
    List Passkey → Except WebauthnError (RequestChallengeResponse × PasskeyAuthentication)
  finish_passkey_authentication :
    PublicKeyCredential → PasskeyAuthentication →
    Except WebauthnError AuthenticationResult
  allowed_origins : List Url

/-- The shared application state behind `SharedAppState`: the credential
repository rows plus the configured relying-party origin string
(`state.origin`). -/
structure AppState where
  users : List User
  nextId : Nat
  origin : String
deriving DecidableEq, Repr

/-- Errors of the credential repository (`app.rs`), per the spec's
`Conflict|NotFound` taxonomy. -/
inductive AppError where
  | conflict
  | notFound
deriving DecidableEq, Repr

/-- Modelled from the spec: `app.rs` is not under `src/`; the spec maps a
duplicate-credential conflict to a BAD_REQUEST-equivalent status and a
missing row to NotFound. -/
def AppError.toStatus : AppError → StatusCode
  | .conflict => .BAD_REQUEST
  | .notFound => .NOT_FOUND

/-- Look a user row up by username. -/
def findUser (users : List User) (username : String) : Option User :=
  users.find? (fun u => u.username == username)

/-- Modelled from the spec: `app.rs` is not under `src/`;
`get_user_with_credentials` fetches or lazily provisions a user row for the
asserted username (first-seen username becomes a new User with zero
credentials) and attaches all owned credentials. -/
def get_user_with_credentials (app : AppState) (username : String) :
    User × AppState :=
  match findUser app.users username with
  | some u => (u, app)
  | none =>
    let u : User := ⟨app.nextId, username, []⟩
    (u, { app with users := app.users ++ [u], nextId := app.nextId + 1 })

/-- Modelled from the spec: `app.rs` is not under `src/`; `add_credential`
appends a new Credential for the user and fails with Conflict if the
`credential_id` already exists for that user, NotFound if the user row is
missing. -/
def add_credential (app : AppState) (username name : String)
    (passkey : Passkey) : Except AppError AppState :=
  match findUser app.users username with
  | none => .error .notFound
  | some u =>
    if u.credentials.any (fun c => c.credential.cred_id == passkey.cred_id) then
      .error .conflict
    else
      .ok { app with
            users := app.users.map (fun v =>
              if v.username == username then
                { v with credentials := v.credentials ++ [⟨passkey, name⟩] }
              else v) }

/-- Modelled from the spec: `app.rs` is not under `src/`; `update_credential`
writes the advanced signature counter back to the stored credential row
matching the authentication result's credential id. -/
def update_credential (app : AppState) (ar : AuthenticationResult) : AppState :=
  { app with
    users := app.users.map (fun u =>
      { u with credentials := u.credentials.map (fun c =>
          if c.credential.cred_id == ar.cred_id then
            { c with credential := { c.credential with counter := ar.counter } }
          else c) }) }

/-- Number of credentials currently stored for a username. -/
def countCredentials (app : AppState) (username : String) : Nat :=
  match findUser app.users username with
  | some u => u.credentials.length
  | none => 0

/-- `validate_handler`: OK exactly when the session's `logged_in` flag is
true (`session.get::<bool>("logged_in").unwrap_or_default()`), otherwise
UNAUTHORIZED. -/
def validate_handler (session : Session) : StatusCode :=
  if session.logged_in.getD false then .OK else .UNAUTHORIZED

/-- The redirect issued by the `RequireLoggedIn` extractor on rejection. -/
def requireLoggedInRedirect : String := "/authenticate?redirect_url=/credentials"

/-- The `RequireLoggedIn` extractor: succeeds when a session loads and its
`logged_in` flag is true, otherwise rejects with a temporary redirect to the
login page; a missing session (`ReadableSession::from_request` failure) is
treated like `logged_in = false`. -/
def require_logged_in (session : Option Session) : Except String Unit :=
  match session with
  | some s =>
    if s.logged_in.getD false then .ok () else .error requireLoggedInRedirect
  | none => .error requireLoggedInRedirect

/-- Request body of a registration finish: display name + client credential
response. -/
structure RegisterEndRequestPayload where
  name : String
  credential : RegisterPublicKeyCredential
deriving DecidableEq, Repr

/-- Response body of `authenticate_start_handler`. -/
structure AuthenticateStartResponsePayload where
  challenge : Option RequestChallengeResponse
deriving DecidableEq, Repr

/-- Response body of `authenticate_end_handler`. -/
structure AuthenticateEndResponsePayload where
  redirect_url : String
deriving DecidableEq, Repr

/-- `register_end_handler`: load `passkey_registration` from the session
(absence is NOT_FOUND), run `finish_passkey_registration` (failure is
UNAUTHORIZED), re-fetch the user and reject a duplicate `cred_id` with
BAD_REQUEST, persist the credential, then remove `passkey_registration`
from the session. -/
def register_end_handler (w : Webauthn) (username : String)
    (session : Session) (payload : RegisterEndRequestPayload)
    (app : AppState) : Except StatusCode Unit × Session × AppState :=
  match session.passkey_registration with
  | none => (.error .NOT_FOUND, session, app)
  | some passkey_reg =>
    match w.finish_passkey_registration payload.credential passkey_reg with
    | .error _ => (.error .UNAUTHORIZED, session, app)
    | .ok passkey =>
      let (user, app1) := get_user_with_credentials app username
      if user.credentials.any
          (fun c => c.credential.cred_id == passkey.cred_id) then
        (.error .BAD_REQUEST, session, app1)
      else
        match add_credential app1 username payload.name passkey with
        | .error e => (.error e.toStatus, session, app1)
        | .ok app2 =>
          (.ok (), { session with passkey_registration := none }, app2)

/-- `authenticate_start_handler`: short-circuit with no challenge when
already logged in; with zero credentials set `logged_in = true` and return no
challenge; otherwise run `start_passkey_authentication` and stash the
opaque state under `passkey_authentication`. -/
def authenticate_start_handler (w : Webauthn) (username : String)
    (session : Session) (app : AppState) :
    Except StatusCode AuthenticateStartResponsePayload × Session × AppState :=
  if session.logged_in.getD false then
    (.ok ⟨none⟩, session, app)
  else
    let (user, app1) := get_user_with_credentials app username
    if user.credentials.isEmpty then
      (.ok ⟨none⟩, { session with logged_in := some true }, app1)
    else
      let passkeys := user.credentials.map (fun c => c.credential)
      match w.start_passkey_authentication passkeys with
      | .error _ => (.error .UNAUTHORIZED, session, app1)
      | .ok (req_chal, passkey_auth) =>
        (.ok ⟨some req_chal⟩,
         { session with passkey_authentication := some passkey_auth }, app1)

/-- `authenticate_end_handler`: load `passkey_authentication` (absence is
NO_CONTENT), run `finish_passkey_authentication` (failure is UNAUTHORIZED),
update the stored credential when `needs_update()`, remove
`passkey_authentication`, set `logged_in = true`, then consume the session's
`redirect_url` if present, else default to `{origin}/credentials`. -/
def authenticate_end_handler (w : Webauthn) (session : Session)
    (payload : PublicKeyCredential) (app : AppState) :
    Except StatusCode AuthenticateEndResponsePayload × Session × AppState :=
  match session.passkey_authentication with
  | none => (.error .NO_CONTENT, session, app)
  | some passkey_authentication =>
    match w.finish_passkey_authentication payload passkey_authentication with
    | .error _ => (.error .UNAUTHORIZED, session, app)
    | .ok auth_result =>
      let app1 :=
        if auth_result.needs_update then update_credential app auth_result
        else app
      let session1 := { session with
                        passkey_authentication := none,
                        logged_in := some true }
      match session1.redirect_url with
      | some redirect_url =>
        (.ok ⟨redirect_url⟩, { session1 with redirect_url := none }, app1)
      | none =>
        (.ok ⟨app1.origin ++ "/" ++ "credentials"⟩, session1, app1)

/-- Outcome of the liquid templating layer for the authenticate page:
whether `parser.parse` of the embedded template and
`parsed_template.render` succeed, and the rendered output. -/
structure Liquid where
  parse_ok : Bool
  render_ok : Bool
  output : String
deriving DecidableEq, Repr

/-- The candidate redirect URL of the authenticate page: the
`redirect_url` query parameter, defaulting to `{origin}/credentials`. -/
def candidate_redirect_url (params_redirect_url : Option String)
    (app : AppState) : String :=
  params_redirect_url.getD (app.origin ++ "/" ++ "credentials")

/-- The redirect-validation gate of `get_authenticate_template_handler`
in isolation: a candidate is accepted when it parses as an absolute URL
whose origin equals the origin of one of the allowed origins. -/
def redirect_gate_accepts (parseUrl : String → Option Url) (w : Webauthn)
    (candidate : String) : Bool :=
  match parseUrl candidate with
  | none => false
  | some url => w.allowed_origins.any (fun u => u.origin == url.origin)

/-- `get_authenticate_template_handler`: build the candidate redirect URL
(query parameter, else `{origin}/credentials`), parse it with
`url::Url::parse` (failure is BAD_REQUEST), require its origin to match an
allowed origin (`get_allowed_origins()`, failure is FORBIDDEN), and only
then render and store the validated URL under `redirect_url` in the
session.  `parseUrl` stands for the external `url` crate's parser, which
accepts only absolute URLs. -/
def get_authenticate_template_handler (liquid : Liquid)
    (parseUrl : String → Option Url) (w : Webauthn)
    (params_redirect_url : Option String) (session : Session)
    (app : AppState) : StatusCode × String × Session :=
  if !liquid.parse_ok then
    (.INTERNAL_SERVER_ERROR, "", session)
  else
    let redirect_url := candidate_redirect_url params_redirect_url app
    match parseUrl redirect_url with
    | none => (.BAD_REQUEST, "", session)
    | some url =>
      if !(w.allowed_origins.any (fun u => u.origin == url.origin)) then
        (.FORBIDDEN, "", session)
      else if liquid.render_ok then
        (.OK, liquid.output, { session with redirect_url := some redirect_url })
      else
        (.INTERNAL_SERVER_ERROR, "", session)

/-- An inbound HTTP request to the authenticate-finish route: the
`X-Remote-User` header, the session resolved from the cookie, and the JSON
body.  `authenticate_end_handler`'s extractor list never touches the
header. -/
structure Request where
  x_remote_user : Option String
  session : Session
  body : PublicKeyCredential
deriving DecidableEq, Repr

/-- `authenticate_end_handler` as invoked on a raw request: its extractors
pull the session and the JSON body out of the request; no header is read. -/
def authenticate_end_from_request (w : Webauthn) (r : Request)
    (app : AppState) :
    Except StatusCode AuthenticateEndResponsePayload × Session × AppState :=
  authenticate_end_handler w r.session r.body app

/-- Whether a handler result is a success. -/
def isOkResult {α : Type} (e : Except StatusCode α) : Bool :=
  match e with
  | .ok _ => true
  | .error _ => false

/-! Concrete instances used to evaluate the handlers on closed inputs. -/

def werr : WebauthnError := ⟨0⟩

def demoOrigin : Origin := ⟨"https", "auth.example.com", 443⟩

/-- A webauthn primitive whose ceremony calls all fail (cryptographic
rejection on every finish). -/
def wCryptoFail : Webauthn :=
  { start_passkey_registration := fun _ _ _ _ => .error werr
    finish_passkey_registration := fun _ _ => .error werr
    start_passkey_authentication := fun _ => .error werr
    finish_passkey_authentication := fun _ _ => .error werr
    allowed_origins := [⟨demoOrigin⟩] }

def pk1 : Passkey := ⟨"cred-1", 0⟩

def ar1 : AuthenticationResult := ⟨"cred-1", 5, false⟩

def chalReg : CreationChallengeResponse := ⟨7⟩

def chalAuth : RequestChallengeResponse := ⟨8⟩

/-- A webauthn primitive whose ceremony calls all succeed. -/
def wHappy : Webauthn :=
  { start_passkey_registration := fun _ _ _ _ => .ok (chalReg, ⟨1⟩)
    finish_passkey_registration := fun _ _ => .ok pk1
    start_passkey_authentication := fun _ => .ok (chalAuth, ⟨2⟩)
    finish_passkey_authentication := fun _ _ => .ok ar1
    allowed_origins := [⟨demoOrigin⟩] }

def userAlice : User := ⟨1, "alice", [⟨pk1, "key1"⟩]⟩

def appAlice : AppState := ⟨[userAlice], 2, "https://auth.example.com"⟩

def appEmpty : AppState := ⟨[], 0, "https://auth.example.com"⟩

def sIdle : Session := {}

def sPendingReg : Session := { passkey_registration := some ⟨1⟩ }

def sPendingAuth : Session := { passkey_authentication := some ⟨2⟩ }

def sPendingAuthRedirect : Session :=
  { passkey_authentication := some ⟨2⟩,
    redirect_url := some "https://auth.example.com/app" }

def payload0 : RegisterEndRequestPayload := ⟨"key1", ⟨0⟩⟩

def pkc0 : PublicKeyCredential := ⟨0⟩

/-! Theorems. -/

/-- C1, counterexample: a registration finish that ends in the terminal
cryptographic-rejection outcome (UNAUTHORIZED) leaves the session's
`passkey_registration` ceremony-state key in place, so the claim that every
terminal outcome removes the ceremony-state key is false on this input. -/
theorem register_end_crypto_failure_keeps_state :
    register_end_handler wCryptoFail "alice" sPendingReg payload0 appAlice =
      (.error .UNAUTHORIZED, sPendingReg, appAlice) ∧
    sPendingReg.passkey_registration = some ⟨1⟩ :=
  ⟨rfl, rfl⟩

/-- C1, amended: the ceremony-state key is removed exactly when the finish
call fully succeeds; on any failure — including definitive cryptographic
rejection — the session is returned unchanged, so the stale ceremony state
remains. -/
theorem ceremony_state_cleared_iff_success (w : Webauthn) (username : String)
    (s : Session) (rp : RegisterEndRequestPayload) (ap : PublicKeyCredential)
    (app : AppState) :
    (register_end_handler w username s rp app).2.1 =
      (if isOkResult (register_end_handler w username s rp app).1 then
        { s with passkey_registration := none }
      else s) ∧
    (authenticate_end_handler w s ap app).2.1 =
      (if isOkResult (authenticate_end_handler w s ap app).1 then
        { s with passkey_authentication := none, logged_in := some true,
                 redirect_url := none }
      else s) := by
  constructor
  · rcases hpr : s.passkey_registration with _ | reg
    · simp [register_end_handler, hpr, isOkResult]
    · rcases hf : w.finish_passkey_registration rp.credential reg with e | pk
      · simp [register_end_handler, hpr, hf, isOkResult]
      · rcases hdup : (get_user_with_credentials app username).1.credentials.any
            (fun c => c.credential.cred_id == pk.cred_id) with _ | _
        · rcases ha : add_credential (get_user_with_credentials app username).2
              username rp.name pk with e | a2
          · simp [register_end_handler, hpr, hf, hdup, ha, isOkResult]
          · simp [register_end_handler, hpr, hf, hdup, ha, isOkResult]
        · simp [register_end_handler, hpr, hf, hdup, isOkResult]
  · rcases hpa : s.passkey_authentication with _ | pa
    · simp [authenticate_end_handler, hpa, isOkResult]
    · rcases hf : w.finish_passkey_authentication ap pa with e | ar
      · simp [authenticate_end_handler, hpa, hf, isOkResult]
      · rcases hru : s.redirect_url with _ | u
        · simp [authenticate_end_handler, hpa, hf, hru, isOkResult]
        · simp [authenticate_end_handler, hpa, hf, hru, isOkResult]

/-- C5: calling a ceremony finish on a session holding no pending ceremony
state yields the distinct "nothing pending" status (NO_CONTENT for the
authentication finish, NOT_FOUND for the registration finish) with the
session and store untouched, and the result does not depend on the external
crypto primitive — so it is never the cryptographic-failure status. -/
theorem finish_without_pending_state_is_nothing_pending
    (w w' : Webauthn) (username : String) (s : Session)
    (rp : RegisterEndRequestPayload) (ap : PublicKeyCredential)
    (app : AppState)
    (hauth : s.passkey_authentication = none)
    (hreg : s.passkey_registration = none) :
    authenticate_end_handler w s ap app = (.error .NO_CONTENT, s, app) ∧
    register_end_handler w username s rp app = (.error .NOT_FOUND, s, app) ∧
    authenticate_end_handler w s ap app =
      authenticate_end_handler w' s ap app ∧
    register_end_handler w username s rp app =
      register_end_handler w' username s rp app := by
  unfold authenticate_end_handler register_end_handler
  simp [hauth, hreg]

/-- Witness for C5 at a concrete idle session. -/
theorem finish_without_pending_state_is_nothing_pending_witness :
    sIdle.passkey_authentication = none ∧
    sIdle.passkey_registration = none ∧
    (authenticate_end_handler wCryptoFail sIdle pkc0 appAlice =
        (.error .NO_CONTENT, sIdle, appAlice) ∧
      register_end_handler wCryptoFail "alice" sIdle payload0 appAlice =
        (.error .NOT_FOUND, sIdle, appAlice) ∧
      authenticate_end_handler wCryptoFail sIdle pkc0 appAlice =
        authenticate_end_handler wHappy sIdle pkc0 appAlice ∧
      register_end_handler wCryptoFail "alice" sIdle payload0 appAlice =
        register_end_handler wHappy "alice" sIdle payload0 appAlice) :=
  ⟨rfl, rfl,
    finish_without_pending_state_is_nothing_pending wCryptoFail wHappy "alice"
      sIdle payload0 pkc0 appAlice rfl rfl⟩

/-- C8: the access-gate predicate holds iff the session's `logged_in` flag
is true: `validate_handler` answers OK exactly then and UNAUTHORIZED
otherwise, the `RequireLoggedIn` extractor passes exactly then and otherwise
rejects with the redirect to the login page, and a missing session behaves
exactly like `logged_in = false`. -/
theorem access_gate_iff_logged_in (s : Session) :
    (validate_handler s = .OK ↔ s.logged_in.getD false = true) ∧
    (validate_handler s = .UNAUTHORIZED ↔ s.logged_in.getD false = false) ∧
    (require_logged_in (some s) = .ok () ↔ s.logged_in.getD false = true) ∧
    (require_logged_in (some s) = .error requireLoggedInRedirect ↔
      s.logged_in.getD false = false) ∧
    require_logged_in none = .error requireLoggedInRedirect := by
  cases h : s.logged_in.getD false <;>
    simp [validate_handler, require_logged_in, h]

/-- C3: when the user record has zero credentials and the session is not
already logged in, `authenticate_start_handler` marks the session
`logged_in = true` and answers with an empty challenge, and its result does
not depend on the external crypto primitive (no `start_authentication`
call). -/
theorem authenticate_start_zero_credentials_logs_in
    (w w' : Webauthn) (username : String) (s : Session) (app : AppState)
    (hlog : s.logged_in.getD false = false)
    (hcred : (get_user_with_credentials app username).1.credentials = []) :
    authenticate_start_handler w username s app =
      (.ok ⟨none⟩, { s with logged_in := some true },
        (get_user_with_credentials app username).2) ∧
    authenticate_start_handler w username s app =
      authenticate_start_handler w' username s app := by
  have h1 : ∀ w₀ : Webauthn, authenticate_start_handler w₀ username s app =
      (.ok ⟨none⟩, { s with logged_in := some true },
        (get_user_with_credentials app username).2) := by
    intro w₀
    simp [authenticate_start_handler, hlog, hcred]
  exact ⟨h1 w, (h1 w).trans (h1 w').symm⟩

/-- Witness for C3: a fresh username with no credentials. -/
theorem authenticate_start_zero_credentials_logs_in_witness :
    sIdle.logged_in.getD false = false ∧
    (get_user_with_credentials appEmpty "bob").1.credentials = [] ∧
    (authenticate_start_handler wCryptoFail "bob" sIdle appEmpty =
        (.ok ⟨none⟩, { sIdle with logged_in := some true },
          (get_user_with_credentials appEmpty "bob").2) ∧
      authenticate_start_handler wCryptoFail "bob" sIdle appEmpty =
        authenticate_start_handler wHappy "bob" sIdle appEmpty) :=
  ⟨rfl, rfl,
    authenticate_start_zero_credentials_logs_in wCryptoFail wHappy "bob" sIdle
      appEmpty rfl rfl⟩

/-- C6: for a user with at least one credential, `authenticate_start_handler`
never changes the session's `logged_in` flag on any path, and on the
challenge path it only stores the opaque `passkey_authentication` state and
returns the challenge. -/
theorem authenticate_start_with_credentials_never_logs_in
    (w w₂ : Webauthn) (username : String) (s s₂ : Session) (app : AppState)
    (c : RequestChallengeResponse) (pa : PasskeyAuthentication)
    (hcred : (get_user_with_credentials app username).1.credentials.isEmpty
      = false)
    (hlog : s.logged_in.getD false = false)
    (hstart : w.start_passkey_authentication
        ((get_user_with_credentials app username).1.credentials.map
          (fun cr => cr.credential)) = .ok (c, pa)) :
    (authenticate_start_handler w₂ username s₂ app).2.1.logged_in =
      s₂.logged_in ∧
    authenticate_start_handler w username s app =
      (.ok ⟨some c⟩, { s with passkey_authentication := some pa },
        (get_user_with_credentials app username).2) := by
  constructor
  · cases h2 : s₂.logged_in.getD false
    · rcases hsa : w₂.start_passkey_authentication
          ((get_user_with_credentials app username).1.credentials.map
            (fun cr => cr.credential)) with e | r
      · simp [authenticate_start_handler, h2, hsa, hcred]
      · simp [authenticate_start_handler, h2, hsa, hcred]
    · simp [authenticate_start_handler, h2]
  · simp [authenticate_start_handler, hlog, hstart, hcred]

/-- Witness for C6 at a user owning one credential. -/
theorem authenticate_start_with_credentials_never_logs_in_witness :
    (get_user_with_credentials appAlice "alice").1.credentials.isEmpty
      = false ∧
    ((authenticate_start_handler wCryptoFail "alice" sIdle appAlice).2.1.logged_in
        = sIdle.logged_in ∧
      authenticate_start_handler wHappy "alice" sIdle appAlice =
        (.ok ⟨some chalAuth⟩,
          { sIdle with passkey_authentication := some ⟨2⟩ },
          (get_user_with_credentials appAlice "alice").2)) :=
  ⟨rfl,
    authenticate_start_with_credentials_never_logs_in wHappy wCryptoFail
      "alice" sIdle sIdle appAlice chalAuth ⟨2⟩ rfl rfl rfl⟩

/-- C4: a registration finish whose resulting `cred_id` duplicates a
credential already registered for the user is rejected with BAD_REQUEST, the
store is untouched, and the user's credential count is unchanged. -/
theorem register_end_duplicate_credential_rejected
    (w : Webauthn) (username : String) (s : Session)
    (rp : RegisterEndRequestPayload) (app : AppState) (u : User)
    (pk : Passkey) (reg : PasskeyRegistration)
    (hreg : s.passkey_registration = some reg)
    (hfinish : w.finish_passkey_registration rp.credential reg = .ok pk)
    (huser : findUser app.users username = some u)
    (hdup : u.credentials.any (fun c => c.credential.cred_id == pk.cred_id)
      = true) :
    register_end_handler w username s rp app = (.error .BAD_REQUEST, s, app) ∧
    countCredentials (register_end_handler w username s rp app).2.2 username =
      countCredentials app username := by
  have hget : get_user_with_credentials app username = (u, app) := by
    simp [get_user_with_credentials, huser]
  have h1 : register_end_handler w username s rp app =
      (.error .BAD_REQUEST, s, app) := by
    simp [register_end_handler, hreg, hfinish, hget, hdup]
  exact ⟨h1, by rw [h1]⟩

/-- Witness for C4: re-registering alice's already-enrolled credential. -/
theorem register_end_duplicate_credential_rejected_witness :
    sPendingReg.passkey_registration = some ⟨1⟩ ∧
    wHappy.finish_passkey_registration payload0.credential ⟨1⟩ = .ok pk1 ∧
    findUser appAlice.users "alice" = some userAlice ∧
    userAlice.credentials.any
      (fun c => c.credential.cred_id == pk1.cred_id) = true ∧
    (register_end_handler wHappy "alice" sPendingReg payload0 appAlice =
        (.error .BAD_REQUEST, sPendingReg, appAlice) ∧
      countCredentials
          (register_end_handler wHappy "alice" sPendingReg payload0
            appAlice).2.2 "alice" =
        countCredentials appAlice "alice") :=
  ⟨rfl, rfl, rfl, rfl,
    register_end_duplicate_credential_rejected wHappy "alice" sPendingReg
      payload0 appAlice userAlice pk1 ⟨1⟩ rfl rfl rfl rfl⟩

/-- C7: on a successful authenticate finish the session's `redirect_url` is
single-use: the response carries the session's `redirect_url` when present
(default `{origin}/credentials` otherwise), and the key is absent from the
resulting session. -/
theorem authenticate_end_redirect_single_use
    (w : Webauthn) (s : Session) (ap : PublicKeyCredential) (app : AppState)
    (r : AuthenticateEndResponsePayload) (s' : Session) (a' : AppState)
    (hok : authenticate_end_handler w s ap app = (.ok r, s', a')) :
    s'.redirect_url = none ∧
    r.redirect_url = s.redirect_url.getD (app.origin ++ "/" ++ "credentials")
    := by
  rcases hpa : s.passkey_authentication with _ | pa
  · simp [authenticate_end_handler, hpa] at hok
  · rcases hf : w.finish_passkey_authentication ap pa with e | ar
    · simp [authenticate_end_handler, hpa, hf] at hok
    · rcases hru : s.redirect_url with _ | u
      · simp only [authenticate_end_handler, hpa, hf, hru,
          Prod.mk.injEq] at hok
        obtain ⟨h1, h2, h3⟩ := hok
        injection h1 with h1
        subst h1 h2
        simp [hru, update_credential, apply_ite]
      · simp only [authenticate_end_handler, hpa, hf, hru,
          Prod.mk.injEq] at hok
        obtain ⟨h1, h2, h3⟩ := hok
        injection h1 with h1
        subst h1 h2
        simp [hru]

/-- Witness for C7: a successful finish on a session carrying a validated
redirect URL. -/
theorem authenticate_end_redirect_single_use_witness :
    authenticate_end_handler wHappy sPendingAuthRedirect pkc0 appAlice =
      (.ok ⟨"https://auth.example.com/app"⟩,
        { logged_in := some true, passkey_registration := none,
          passkey_authentication := none, redirect_url := none },
        appAlice) ∧
    ((⟨none, none, none, none⟩ : Session).redirect_url = none ∧
      (⟨"https://auth.example.com/app"⟩ :
          AuthenticateEndResponsePayload).redirect_url =
        sPendingAuthRedirect.redirect_url.getD
          (appAlice.origin ++ "/" ++ "credentials")) := by
  have h := authenticate_end_redirect_single_use wHappy sPendingAuthRedirect
    pkc0 appAlice ⟨"https://auth.example.com/app"⟩
    { logged_in := some true, passkey_registration := none,
      passkey_authentication := none, redirect_url := none }
    appAlice rfl
  exact ⟨rfl, h.1, h.2⟩

/-- C2: the redirect-validation gate of the authenticate page: the handler
answers BAD_REQUEST when the candidate does not parse as an absolute URL,
FORBIDDEN when its origin matches no allowed origin, leaves the session
unchanged in both cases, and writes the candidate into the session's
`redirect_url` only after it passed both checks; with the embedded template
unparsable everything is an internal error and nothing is stored either. -/
theorem redirect_gate_validates_before_store
    (liquid : Liquid) (parseUrl : String → Option Url) (w : Webauthn)
    (params : Option String) (s : Session) (app : AppState)
    (hp : liquid.parse_ok = true) :
    get_authenticate_template_handler liquid parseUrl w params s app =
      (match parseUrl (candidate_redirect_url params app) with
       | none => (.BAD_REQUEST, "", s)
       | some url =>
         if w.allowed_origins.any (fun u => u.origin == url.origin) then
           (if liquid.render_ok then
             (.OK, liquid.output,
               { s with
                 redirect_url := some (candidate_redirect_url params app) })
           else (.INTERNAL_SERVER_ERROR, "", s))
         else (.FORBIDDEN, "", s)) ∧
    get_authenticate_template_handler ⟨false, liquid.render_ok, liquid.output⟩
        parseUrl w params s app = (.INTERNAL_SERVER_ERROR, "", s) := by
  constructor
  · rcases hu : parseUrl (candidate_redirect_url params app) with _ | url
    · simp [get_authenticate_template_handler, hp, hu]
    · cases hacc : w.allowed_origins.any (fun u => u.origin == url.origin)
      <;> cases hr : liquid.render_ok <;>
        simp [get_authenticate_template_handler, hp, hu, hacc, hr]
  · simp [get_authenticate_template_handler]

def liquid0 : Liquid := ⟨true, true, "page"⟩

/-- A concrete stand-in for the `url` crate's parser: absolute URLs on the
demo hosts parse to their origin, anything else (relative paths included)
fails to parse. -/
def parseUrlDemo (str : String) : Option Url :=
  if str = "https://auth.example.com/app"
      ∨ str = "https://auth.example.com/credentials" then
    some ⟨demoOrigin⟩
  else if str = "https://evil.example.net/" then
    some ⟨⟨"https", "evil.example.net", 443⟩⟩
  else
    none

/-- Witness for C2: an allowed absolute URL is accepted and stored; with an
unparsable template nothing is stored. -/
theorem redirect_gate_validates_before_store_witness :
    liquid0.parse_ok = true ∧
    (get_authenticate_template_handler liquid0 parseUrlDemo wHappy
        (some "https://auth.example.com/app") sIdle appAlice =
      (.OK, "page",
        { sIdle with redirect_url := some "https://auth.example.com/app" }) ∧
      get_authenticate_template_handler ⟨false, true, "page"⟩ parseUrlDemo
        wHappy (some "https://auth.example.com/app") sIdle appAlice =
      (.INTERNAL_SERVER_ERROR, "", sIdle)) := by
  have h := redirect_gate_validates_before_store liquid0 parseUrlDemo wHappy
    (some "https://auth.example.com/app") sIdle appAlice rfl
  exact ⟨rfl, h.1, h.2⟩

/-- C9: a `redirect_url` query parameter that `url::Url::parse` cannot parse
as an absolute URL makes the authenticate page answer BAD_REQUEST with the
session untouched; the relative target in the redirect the `RequireLoggedIn`
middleware itself issues carries exactly such a parameter, `/credentials`. -/
theorem authenticate_page_relative_redirect_rejected
    (liquid : Liquid) (parseUrl : String → Option Url) (w : Webauthn)
    (u : String) (s : Session) (app : AppState)
    (hp : liquid.parse_ok = true)
    (hu : parseUrl u = none) :
    get_authenticate_template_handler liquid parseUrl w (some u) s app =
      (.BAD_REQUEST, "", s) ∧
    requireLoggedInRedirect = "/authenticate?redirect_url=" ++ "/credentials"
    := by
  constructor
  · simp [get_authenticate_template_handler, candidate_redirect_url, hp, hu]
  · rfl

/-- Witness for C9 at the middleware's own relative target `/credentials`. -/
theorem authenticate_page_relative_redirect_rejected_witness :
    liquid0.parse_ok = true ∧
    parseUrlDemo "/credentials" = none ∧
    (get_authenticate_template_handler liquid0 parseUrlDemo wHappy
        (some "/credentials") sIdle appAlice = (.BAD_REQUEST, "", sIdle) ∧
      requireLoggedInRedirect =
        "/authenticate?redirect_url=" ++ "/credentials") :=
  ⟨rfl, by decide,
    authenticate_page_relative_redirect_rejected liquid0 parseUrlDemo wHappy
      "/credentials" sIdle appAlice rfl (by decide)⟩

/-- C10: `authenticate_end_handler` never reads the `X-Remote-User` header:
two requests agreeing on session contents and body produce identical
responses and identical state changes, whatever their header says. -/
theorem authenticate_end_ignores_remote_user_header
    (w : Webauthn) (app : AppState) (r1 r2 : Request)
    (hs : r1.session = r2.session) (hb : r1.body = r2.body) :
    authenticate_end_from_request w r1 app =
      authenticate_end_from_request w r2 app := by
  unfold authenticate_end_from_request
  rw [hs, hb]

def req1 : Request := ⟨some "alice", sPendingAuth, pkc0⟩

def req2 : Request := ⟨some "mallory", sPendingAuth, pkc0⟩

/-- Witness for C10: same session and body, different `X-Remote-User`. -/
theorem authenticate_end_ignores_remote_user_header_witness :
    req1.session = req2.session ∧
    req1.body = req2.body ∧
    authenticate_end_from_request wHappy req1 appAlice =
      authenticate_end_from_request wHappy req2 appAlice :=
  ⟨rfl, rfl,
    authenticate_end_ignores_remote_user_header wHappy appAlice req1 req2
      rfl rfl⟩

end WebauthnTiny
